import Mathlib

/-!
Shallow embedding of `pipeweld` (src/src/main.rs): a GTK volume-control
applet.  Pure data is translated directly; the external process call is
modelled by the list of issued `Call`s together with an `Except` result
driven by an externally supplied process outcome; GTK widgets are modelled
as records whose setters mirror the gtk-rs calls used by the program.
-/

/-- A signed integer percentage delta (`struct DiffValue(i32)`). -/
structure DiffValue where
  val : Int
deriving DecidableEq, Repr

/-- The `Display` impl for `DiffValue`: `"+{diff}%"` when `diff > 0`,
otherwise `"{diff}%"` (from `diff.gt(&0).then(..).unwrap_or_else(..)`). -/
def DiffValue.display (d : DiffValue) : String :=
  if d.val > 0 then "+" ++ toString d.val ++ "%" else toString d.val ++ "%"

/-- One external process invocation: the program name and its arguments. -/
structure Call where
  program : String
  args : List String
deriving DecidableEq, Repr

/-- The outcome of attempting to run one external process: spawning can
fail, or the process runs and terminates with an exit code
(`ExitStatus::success()` holds exactly for code 0). -/
inductive CmdOutcome
  | spawnError
  | exited (code : Nat)
deriving DecidableEq, Repr

/-- The two error shapes of `change_volume_percent`: the `wrap_err`ed spawn
failure and the `eyre!("command failed")` nonzero-status failure. -/
inductive CmdError
  | commandError
  | statusError
deriving DecidableEq, Repr

/-- The single call built by `AudioControls::change_volume_percent`:
`Command::new("pactl").arg("set-sink-volume").arg("@DEFAULT_SINK@")
.arg(format!("{diff}"))`. -/
def change_volume_percent_call (diff : DiffValue) : Call :=
  ⟨"pactl", ["set-sink-volume", "@DEFAULT_SINK@", diff.display]⟩

/-- `AudioControls::change_volume_percent`: issues its one call, then maps
the process outcome to a result exactly as the source does — spawn failure
becomes the wrapped command error, a run that exits nonzero becomes the
status error, and exit code 0 becomes success. -/
def change_volume_percent (diff : DiffValue) (outcome : CmdOutcome) :
    List Call × Except CmdError Unit :=
  ([change_volume_percent_call diff],
    match outcome with
    | CmdOutcome.spawnError => Except.error CmdError.commandError
    | CmdOutcome.exited code =>
        if code = 0 then Except.ok () else Except.error CmdError.statusError)

/-- A leptos `Scope` handle: an opaque, copyable identifier for the
reactive scope (`create_scope` hands one to the closure in `main`). -/
structure Scope where
  id : Nat
deriving DecidableEq, Repr

/-- `extensions::Reactive<T>`: an owned widget value paired with the scope
handle it was constructed in. -/
structure Reactive (T : Type) where
  inner : T
  cx : Scope

/-- Modelled from the spec: `create_effect` belongs to the external
reactive framework (leptos), whose source is not part of this repository.
Per the spec, a registered effect is a scope-lifetime callback; this
record keeps what the closure in `Reactive::reactive` captures — the clone
of the wrapped widget (a pure value copy here) and the modifier. -/
structure Effect (T : Type) where
  captured : T
  modifier : T → T

/-- One run of a registered effect: the closure clones its captured widget
afresh and applies the modifier to that clone; the framework discards the
result, so a run is just the value `modifier captured`. -/
def Effect.run {T : Type} (e : Effect T) : T :=
  e.modifier e.captured

/-- Modelled from the spec: the state of the external reactive runtime, as
far as this program observes it — the list of effects registered so far,
each bound to the scope it was registered in. -/
structure RuntimeState (T : Type) where
  effects : List (Scope × Effect T)

/-- Modelled from the spec: registering an effect with `create_effect(cx,
closure)` appends it, bound to `cx`, to the runtime's effect list. -/
def create_effect {T : Type} (cx : Scope) (e : Effect T) (st : RuntimeState T) :
    RuntimeState T :=
  ⟨st.effects ++ [(cx, e)]⟩

/-- Modelled from the spec: a registered effect "re-runs automatically
whenever reactive dependencies it reads change" — one run per dependency
change after registration, so `n` changes yield the list of `n` discarded
run results. -/
def Effect.runsOn {T : Type} (e : Effect T) (dependencyChanges : Nat) : List T :=
  List.replicate dependencyChanges e.run

/-- `Reactive::reactive`: clones the wrapped widget, registers an effect
that applies the modifier to a fresh clone on every run, and returns
`self` unchanged. -/
def Reactive.reactive {T : Type} (r : Reactive T) (modifier : T → T)
    (st : RuntimeState T) : Reactive T × RuntimeState T :=
  (r, create_effect r.cx ⟨r.inner, modifier⟩ st)

/-- `Reactive::constant`: applies the modifier to the wrapped widget once,
immediately, and returns the wrapper. -/
def Reactive.constant {T : Type} (r : Reactive T) (modifier : T → T) :
    Reactive T :=
  ⟨modifier r.inner, r.cx⟩

/-- `impl AsRef<I> for Reactive<I>`: exposes the inner widget. -/
def Reactive.as_ref {T : Type} (r : Reactive T) : T :=
  r.inner

/-- A GTK `Application` handle, identified by its application id (built in
`main` from `app_id()`); `build_ui` only threads it into the window
builder. -/
structure Application where
  appId : String
deriving DecidableEq, Repr

/-- GTK box orientation (`gtk::Orientation`); a fresh `gtk::Box` is
horizontal until `set_orientation` is called. -/
inductive GtkOrientation
  | horizontal
  | vertical
deriving DecidableEq, Repr

/-- A `gtk::Button` as this program uses it: label, the four margins, and
the connected click handlers.  The only click closure the program ever
connects is `|_| { AudioControls::change_volume_percent(diff).ok(); }`, so
a handler is represented by its captured `DiffValue`. -/
structure GtkButton where
  label : Option String
  marginTop : Nat
  marginBottom : Nat
  marginStart : Nat
  marginEnd : Nat
  clickHandlers : List DiffValue
deriving DecidableEq, Repr

/-- `Button::builder().build()`: no label, zero margins, no handlers. -/
def GtkButton.new : GtkButton :=
  ⟨none, 0, 0, 0, 0, []⟩

def GtkButton.set_margin_top (b : GtkButton) (v : Nat) : GtkButton :=
  { b with marginTop := v }

def GtkButton.set_margin_bottom (b : GtkButton) (v : Nat) : GtkButton :=
  { b with marginBottom := v }

def GtkButton.set_margin_start (b : GtkButton) (v : Nat) : GtkButton :=
  { b with marginStart := v }

def GtkButton.set_margin_end (b : GtkButton) (v : Nat) : GtkButton :=
  { b with marginEnd := v }

def GtkButton.set_label (b : GtkButton) (s : String) : GtkButton :=
  { b with label := some s }

/-- `connect_clicked`: adds one more click handler. -/
def GtkButton.connect_clicked (b : GtkButton) (diff : DiffValue) : GtkButton :=
  { b with clickHandlers := b.clickHandlers ++ [diff] }

/-- Clicking a button runs each connected handler in order; every handler
of this program calls `change_volume_percent` with its captured delta and
discards the result (`.ok()`), so a click observably issues the
concatenation of the calls of all handlers. -/
def GtkButton.click (b : GtkButton) (outcome : CmdOutcome) : List Call :=
  (b.clickHandlers.map fun diff => (change_volume_percent diff outcome).1).flatten

/-- A `gtk::Box` as this program uses it: orientation plus appended
children (the program only ever appends buttons). -/
structure GtkBox where
  orientation : GtkOrientation
  children : List GtkButton
deriving DecidableEq, Repr

/-- `gtk::Box::builder().build()`: horizontal, no children. -/
def GtkBox.new : GtkBox :=
  ⟨GtkOrientation.horizontal, []⟩

def GtkBox.set_orientation (bx : GtkBox) (o : GtkOrientation) : GtkBox :=
  { bx with orientation := o }

def GtkBox.append (bx : GtkBox) (b : GtkButton) : GtkBox :=
  { bx with children := bx.children ++ [b] }

/-- A `gtk::ApplicationWindow` as this program uses it: the application it
was built for and its (single, optional) child. -/
structure ApplicationWindow where
  application : Application
  child : Option GtkBox
deriving DecidableEq, Repr

def ApplicationWindow.set_child (w : ApplicationWindow) (c : Option GtkBox) :
    ApplicationWindow :=
  { w with child := c }

/-- The `InScope` trait: widget kinds that support scoped
default-construction (instances play the role of the `in_scope!` macro
expansions; a kind without an instance is rejected at elaboration time,
mirroring the Rust trait bound). -/
class InScope (T : Type) where
  in_scope : Scope → Reactive T

/-- `in_scope!(Button)`. -/
instance : InScope GtkButton :=
  ⟨fun cx => ⟨GtkButton.new, cx⟩⟩

/-- `in_scope!(gtk::Box)`. -/
instance : InScope GtkBox :=
  ⟨fun cx => ⟨GtkBox.new, cx⟩⟩

/-- The inherent `Reactive::<ApplicationWindow>::in_scope`: window-kind
widgets additionally take the application handle at construction time. -/
def ApplicationWindow.in_scope (cx : Scope) (application : Application) :
    Reactive ApplicationWindow :=
  ⟨⟨application, none⟩, cx⟩

/-- The `diff_volume_button` closure of `build_ui`: a scoped button whose
constant modifier sets the four margins to 12, connects the click handler
for `diff`, and sets the label to `diff`'s `Display` string. -/
def diff_volume_button (cx : Scope) (diff : DiffValue) : Reactive GtkButton :=
  (InScope.in_scope cx : Reactive GtkButton).constant fun btn =>
    (((((btn.set_margin_top 12).set_margin_bottom 12).set_margin_start
      12).set_margin_end 12).connect_clicked diff).set_label diff.display

/-- `build_ui`: one application window whose child is one vertical box
holding the `-5` button then the `+5` button; the function returns the
window that `window.as_ref().present()` then presents. -/
def build_ui (cx : Scope) (app : Application) : ApplicationWindow :=
  ((ApplicationWindow.in_scope cx app).constant fun window =>
    window.set_child (some
      (((InScope.in_scope cx : Reactive GtkBox).constant fun gtk_box =>
        ((gtk_box.set_orientation GtkOrientation.vertical).append
          (diff_volume_button cx (DiffValue.mk (-5))).as_ref).append
          (diff_volume_button cx (DiffValue.mk 5)).as_ref).as_ref))).as_ref

/-- The fixed fallback filter string in `setup_tracing_subscriber`:
`EnvFilter::try_new("pipeweld=info,warn")` — info level for the crate,
warnings enabled globally. -/
def default_filter_str : String :=
  "pipeweld=info,warn"

/-- `setup_tracing_subscriber`'s filter selection, abstracted over the
external `EnvFilter::try_new` parser (`tryNew`, of the `tracing_subscriber`
crate): read `RUST_LOG` (absent ↦ `none`), parse it, and on either failure
fall back to parsing the fixed default string — exactly the source's
`var("RUST_LOG").and_then(try_new).or_else(|_| try_new(default))`. -/
def setup_env_filter {α : Type} (rustLog : Option String)
    (tryNew : String → Option α) : Option α :=
  match rustLog.bind tryNew with
  | some f => some f
  | none => tryNew default_filter_str

/-- C2: for every integer delta `d`, the `Display` string of
`DiffValue(d)` is `"+{d}%"` when `d > 0` and `"{d}%"` when `d ≤ 0`. -/
theorem diffValue_display_spec (d : Int) :
    (0 < d → (DiffValue.mk d).display = "+" ++ toString d ++ "%") ∧
    (d ≤ 0 → (DiffValue.mk d).display = toString d ++ "%") := by
  constructor
  · intro h
    simp [DiffValue.display, h]
  · intro h
    simp [DiffValue.display, not_lt.mpr h]

/-- Witness for C2 at the concrete deltas named by the claim:
`d = 5 ↦ "+5%"`, `d = -5 ↦ "-5%"`, `d = 0 ↦ "0%"`. -/
theorem diffValue_display_spec_witness :
    (DiffValue.mk 5).display = "+5%" ∧
    (DiffValue.mk (-5)).display = "-5%" ∧
    (DiffValue.mk 0).display = "0%" := by
  refine ⟨?_, ?_, ?_⟩
  · exact ((diffValue_display_spec 5).1 (by norm_num)).trans (by decide)
  · exact ((diffValue_display_spec (-5)).2 (by norm_num)).trans (by decide)
  · exact ((diffValue_display_spec 0).2 (by norm_num)).trans (by decide)

/-- C1 counterexample: the claim reads the third argument as the delta's
`Display` string followed by another `"%"`; at delta 5 the `Display` string
is `"+5%"`, so the claimed argument would be `"+5%%"`, while the code
passes `format!("{diff}")`, i.e. `"+5%"` with exactly one percent sign. -/
theorem change_volume_percent_args_ce :
    (change_volume_percent (DiffValue.mk 5) (CmdOutcome.exited 0)).1 ≠
      [⟨"pactl", ["set-sink-volume", "@DEFAULT_SINK@",
        (DiffValue.mk 5).display ++ "%"]⟩] := by
  decide

/-- C1 (amended): for every delta and process outcome,
`change_volume_percent` issues exactly one external process call, to
`pactl`, with exactly the three arguments `set-sink-volume`,
`@DEFAULT_SINK@` and the delta's `Display` string (which already ends in
`%`; no further `%` is appended). -/
theorem change_volume_percent_args (diff : DiffValue) (outcome : CmdOutcome) :
    (change_volume_percent diff outcome).1 =
      [⟨"pactl", ["set-sink-volume", "@DEFAULT_SINK@", diff.display]⟩] :=
  rfl

/-- C3: `change_volume_percent` errs exactly on spawn failure (the command
error) or a nonzero exit (the status error), and succeeds exactly when the
process runs and exits with code 0. -/
theorem change_volume_result_spec (diff : DiffValue) (outcome : CmdOutcome) :
    ((change_volume_percent diff outcome).2 = Except.ok () ↔
      outcome = CmdOutcome.exited 0) ∧
    ((change_volume_percent diff outcome).2 = Except.error CmdError.commandError ↔
      outcome = CmdOutcome.spawnError) ∧
    ((change_volume_percent diff outcome).2 = Except.error CmdError.statusError ↔
      ∃ code, code ≠ 0 ∧ outcome = CmdOutcome.exited code) := by
  refine ⟨?_, ?_, ?_⟩ <;>
    cases outcome with
    | spawnError => simp [change_volume_percent]
    | exited code =>
        by_cases h : code = 0 <;> simp [change_volume_percent, h]

/-- C5: `constant` applies the modifier to the wrapped widget exactly once
before the wrapper is returned: the returned wrapper already holds
`modifier inner`, and a modifier instrumented with an application counter
(second component) increments it by exactly one. -/
theorem constant_applies_once {T : Type} (r : Reactive T) (f : T → T)
    (s : Reactive (T × Nat)) (g : T → T) :
    ((r.constant f).inner = f r.inner) ∧
    ((r.constant f).cx = r.cx) ∧
    ((s.constant fun p => (g p.1, p.2 + 1)).inner.1 = g s.inner.1) ∧
    ((s.constant fun p => (g p.1, p.2 + 1)).inner.2 = s.inner.2 + 1) :=
  ⟨rfl, rfl, rfl, rfl⟩

/-- C4: `reactive` registers exactly one effect (capturing the widget
clone and the modifier), and under the spec's reactive semantics that
effect runs exactly once per dependency change after registration — `n`
changes yield `n` runs, and zero changes yield zero runs. -/
theorem reactive_runs_once_per_change {T : Type} (r : Reactive T) (f : T → T)
    (st : RuntimeState T) (n : Nat) :
    ((r.reactive f st).2.effects = st.effects ++ [(r.cx, ⟨r.inner, f⟩)]) ∧
    ((Effect.runsOn ⟨r.inner, f⟩ n).length = n) ∧
    (Effect.runsOn ⟨r.inner, f⟩ 0 = ([] : List T)) :=
  ⟨rfl, List.length_replicate n _, rfl⟩

/-- C6: `reactive` returns a wrapper whose inner widget and scope handle
are those of the input wrapper (so `as_ref` still yields the original
widget value); each run of the registered effect only produces
`f`-applied-to-the-clone, a value the framework discards, never touching
the wrapper. -/
theorem reactive_preserves_wrapper {T : Type} (r : Reactive T) (f : T → T)
    (st : RuntimeState T) :
    ((r.reactive f st).1 = r) ∧
    ((r.reactive f st).1.inner = r.inner) ∧
    ((r.reactive f st).1.cx = r.cx) ∧
    ((r.reactive f st).1.as_ref = r.as_ref) ∧
    (Effect.run ⟨r.inner, f⟩ = f r.inner) :=
  ⟨rfl, rfl, rfl, rfl, rfl⟩

/-- C7: `build_ui` yields one top-level window containing one vertical box
with exactly two buttons, labeled with the `Display` strings of
`DiffValue(-5)` and `DiffValue(5)`; clicking the first issues exactly the
call `pactl set-sink-volume @DEFAULT_SINK@ -5%`, clicking the second
`pactl set-sink-volume @DEFAULT_SINK@ +5%`. -/
theorem build_ui_layout (cx : Scope) (app : Application) (outcome : CmdOutcome) :
    ∃ bx b1 b2,
      (build_ui cx app).child = some bx ∧
      bx.orientation = GtkOrientation.vertical ∧
      bx.children = [b1, b2] ∧
      b1.label = some (DiffValue.mk (-5)).display ∧
      b2.label = some (DiffValue.mk 5).display ∧
      b1.label = some "-5%" ∧
      b2.label = some "+5%" ∧
      b1.click outcome = (change_volume_percent (DiffValue.mk (-5)) outcome).1 ∧
      b2.click outcome = (change_volume_percent (DiffValue.mk 5) outcome).1 ∧
      b1.click outcome =
        [⟨"pactl", ["set-sink-volume", "@DEFAULT_SINK@", "-5%"]⟩] ∧
      b2.click outcome =
        [⟨"pactl", ["set-sink-volume", "@DEFAULT_SINK@", "+5%"]⟩] := by
  exact ⟨_, _, _, rfl, rfl, rfl, rfl, rfl, rfl, rfl, rfl, rfl, rfl, rfl⟩

/-- C8: whenever `RUST_LOG` is absent or fails to parse (i.e. reading then
parsing it produces nothing), the filter that becomes active is the one
obtained from the fixed default string `"pipeweld=info,warn"`. -/
theorem setup_env_filter_default {α : Type} (rustLog : Option String)
    (tryNew : String → Option α) (h : rustLog.bind tryNew = none) :
    setup_env_filter rustLog tryNew = tryNew default_filter_str ∧
    default_filter_str = "pipeweld=info,warn" := by
  refine ⟨?_, rfl⟩
  simp [setup_env_filter, h]

/-- Witness for C8: with `RUST_LOG` absent and a parser that accepts every
string (represented by the string it parsed), the active filter is the one
for `"pipeweld=info,warn"`. -/
theorem setup_env_filter_default_witness :
    @setup_env_filter String none some = some "pipeweld=info,warn" := by
  have h := (@setup_env_filter_default String none some rfl).1
  simpa [default_filter_str] using h

/-- C9: none of the wrapper operations is fallible — each is a total
function whose result type has no error alternative (mirroring the Rust
signatures, which return `Self`, a pair, or a reference, never a
`Result`); widget kinds without an `InScope` instance are rejected when
the program is elaborated, not at run time. -/
theorem reactive_ops_infallible {T : Type} (r : Reactive T) (f : T → T)
    (st : RuntimeState T) (cx : Scope) (app : Application) :
    (∃ w : Reactive T, r.constant f = w) ∧
    (∃ p : Reactive T × RuntimeState T, r.reactive f st = p) ∧
    (∃ x : T, r.as_ref = x) ∧
    (∃ b : Reactive GtkButton, (InScope.in_scope cx : Reactive GtkButton) = b) ∧
    (∃ bx : Reactive GtkBox, (InScope.in_scope cx : Reactive GtkBox) = bx) ∧
    (∃ w : Reactive ApplicationWindow, ApplicationWindow.in_scope cx app = w) :=
  ⟨⟨_, rfl⟩, ⟨_, rfl⟩, ⟨_, rfl⟩, ⟨_, rfl⟩, ⟨_, rfl⟩, ⟨_, rfl⟩⟩

/-- C10: every wrapper operation preserves the scope association —
`constant` and `reactive` return a wrapper holding the input wrapper's
scope handle, and each `in_scope` constructor stores exactly the scope it
was given. -/
theorem wrapper_scope_preserved {T : Type} (r : Reactive T) (f : T → T)
    (st : RuntimeState T) (cx : Scope) (app : Application) :
    ((r.constant f).cx = r.cx) ∧
    ((r.reactive f st).1.cx = r.cx) ∧
    ((InScope.in_scope cx : Reactive GtkButton).cx = cx) ∧
    ((InScope.in_scope cx : Reactive GtkBox).cx = cx) ∧
    ((ApplicationWindow.in_scope cx app).cx = cx) :=
  ⟨rfl, rfl, rfl, rfl, rfl⟩
